import Mathlib

/-!
Verification of `src/dataset/fetch_unified_dataset.py`: a shallow embedding of
the normalization-and-merge core (source normalizers, scalar coercions, and the
priority-based VIN upsert store), with theorems settling the specification's
claims about it.

Python's loosely-typed JSON-ish values are embedded as the inductive `Val`;
Python dicts become association lists over `String` keys; the SQLite store
becomes an association list keyed by the VIN value.  Helpers imported by the
script from `dataset_builder.merge_sqlite_datasets` (`PRIORITY`,
`UNIFIED_COLUMNS`, `empty_record`, `to_int`, `to_float`, `to_bool`) are not in
the repository snapshot and are modelled from the spec, as marked on each.
-/

set_option maxRecDepth 20000

namespace FetchUnified

/-- JSON-like runtime values as handled by the Python pipeline: `None`,
booleans, numbers (ints and floats, embedded as rationals), strings, lists and
dicts (string-keyed association lists, first binding wins). -/
inductive Val : Type where
  | vnull : Val
  | vbool : Bool → Val
  | vnum : ℚ → Val
  | vstr : String → Val
  | vlist : List Val → Val
  | vobj : List (String × Val) → Val

open Val

/-- Python truthiness: `None`, `False`, `0`, `""`, `[]`, and the empty dict are
falsy; everything else is truthy. -/
def truthy : Val → Bool
  | vnull => false
  | vbool b => b
  | vnum q => !(q == 0)
  | vstr s => !(s == "")
  | vlist xs => !xs.isEmpty
  | vobj fs => !fs.isEmpty

/-- First binding for a key in an association list. -/
def lookupFirst : List (String × Val) → String → Option Val
  | [], _ => none
  | (k, x) :: rest, key => if k == key then some x else lookupFirst rest key

/-- Python `d.get(key)` on a dict value: the stored value, or `None` when the
key is absent (junk `None` on non-dict values, which well-formedness
hypotheses rule out where the script would raise). -/
def vget (v : Val) (key : String) : Val :=
  match v with
  | vobj fs => (lookupFirst fs key).getD vnull
  | _ => vnull

/-- A Python dict under construction: a string-keyed association list. -/
abbrev Dict := List (String × Val)

/-- Python `record.get(key)` for a `Dict`. -/
def dget (d : Dict) (key : String) : Val := (lookupFirst d key).getD vnull

/-- Python `d[key] = v`: replace the first binding for `key`, else append. -/
def dset : Dict → String → Val → Dict
  | [], key, v => [(key, v)]
  | (k, x) :: rest, key, v =>
    if k == key then (k, v) :: rest else (k, x) :: dset rest key v

/-- Python `record.update(pairs)`: set each pair in order. -/
def dupdate (d : Dict) (pairs : List (String × Val)) : Dict :=
  pairs.foldl (fun acc kv => dset acc kv.1 kv.2) d

/-- Python `record.setdefault(key, v)`: insert `v` only when the KEY is absent;
an existing binding is kept even when its value is `None`. -/
def dsetdefault (d : Dict) (key : String) (v : Val) : Dict :=
  if (lookupFirst d key).isSome then d else d ++ [(key, v)]

/-- Python `a or b`. -/
def pyOr (a b : Val) : Val := if truthy a then a else b

/-- Python `len` on a list value. -/
def listLen (v : Val) : ℕ :=
  match v with
  | vlist xs => xs.length
  | _ => 0

/-- Python `xs[i]` on a list value (junk `None` out of range / on non-lists,
ruled out by the guards the script itself uses). -/
def listIdx (v : Val) (i : ℕ) : Val :=
  match v with
  | vlist xs => xs.getD i vnull
  | _ => vnull

mutual

/-- Model of Python `json.dumps` on embedded values (used only through
null-vs-non-null observations, so the exact rendering of numbers is
immaterial). -/
def serialize : Val → String
  | vnull => "null"
  | vbool b => if b then "true" else "false"
  | vnum q => toString q
  | vstr s => "\"" ++ s ++ "\""
  | vlist xs => "[" ++ serializeItems xs ++ "]"
  | vobj fs => "\x7b" ++ serializeFields fs ++ "\x7d"

/-- Comma-join of serialized list items. -/
def serializeItems : List Val → String
  | [] => ""
  | [x] => serialize x
  | x :: y :: rest => serialize x ++ ", " ++ serializeItems (y :: rest)

/-- Comma-join of serialized dict fields. -/
def serializeFields : List (String × Val) → String
  | [] => ""
  | [(k, v)] => "\"" ++ k ++ "\": " ++ serialize v
  | (k, v) :: f :: rest =>
    "\"" ++ k ++ "\": " ++ serialize v ++ ", " ++ serializeFields (f :: rest)

end

mutual

/-- Structural equality of values (SQLite compares VIN keys by value). -/
def valBeq : Val → Val → Bool
  | vnull, vnull => true
  | vbool a, vbool b => a == b
  | vnum a, vnum b => a == b
  | vstr a, vstr b => a == b
  | vlist xs, vlist ys => valListBeq xs ys
  | vobj fs, vobj gs => valObjBeq fs gs
  | _, _ => false

/-- Pointwise `valBeq` on lists. -/
def valListBeq : List Val → List Val → Bool
  | [], [] => true
  | x :: xs, y :: ys => valBeq x y && valListBeq xs ys
  | _, _ => false

/-- Pointwise `valBeq` on dict fields. -/
def valObjBeq : List (String × Val) → List (String × Val) → Bool
  | [], [] => true
  | (k, v) :: fs, (l, w) :: gs => k == l && valBeq v w && valObjBeq fs gs
  | _, _ => false

end

/-- Accumulate decimal digits; `none` as soon as a non-digit appears. -/
def digitsToNatAux : List Char → ℕ → Option ℕ
  | [], acc => some acc
  | c :: cs, acc =>
    if c.isDigit then digitsToNatAux cs (acc * 10 + (c.toNat - 48)) else none

/-- Parse a non-empty all-digits character list. -/
def digitsToNat (cs : List Char) : Option ℕ :=
  if cs.isEmpty then none else digitsToNatAux cs 0

/-- Python `str.strip()`: drop leading and trailing whitespace (modelled over
the character list so that proofs can evaluate it). -/
def strStrip (s : String) : String :=
  String.mk (((s.data.dropWhile Char.isWhitespace).reverse.dropWhile
    Char.isWhitespace).reverse)

/-- Python `str.lower()` (ASCII case folding, modelled over the character
list so that proofs can evaluate it). -/
def strLower (s : String) : String := String.mk (s.data.map Char.toLower)

/-- Parse an optionally signed integer numeral (whitespace already trimmed). -/
def parseIntStr (s : String) : Option ℤ :=
  match (strStrip s).data with
  | [] => none
  | '-' :: cs => (digitsToNat cs).map (fun n => -(n : ℤ))
  | '+' :: cs => (digitsToNat cs).map (fun n => (n : ℤ))
  | cs => (digitsToNat cs).map (fun n => (n : ℤ))

/-- Digits of one side of a decimal point; an empty side stands for 0 (as in
`".5"` or `"5."`), a non-digit fails the parse. -/
def partDigits : List Char → Option ℕ
  | [] => some 0
  | cs => digitsToNat cs

/-- Combine integer and fractional digit parts into a rational. -/
def parseDecimalParts (ip fp : List Char) : Option ℚ :=
  if ip.isEmpty && fp.isEmpty then none
  else
    match partDigits ip, partDigits fp with
    | some a, some b => some ((a : ℚ) + (b : ℚ) / ((10 : ℚ) ^ fp.length))
    | _, _ => none

/-- Parse an unsigned decimal numeral with at most one decimal point. -/
def parseUnsignedDecimal (cs : List Char) : Option ℚ :=
  let ip := cs.takeWhile (fun c => !(c == '.'))
  let rest := cs.dropWhile (fun c => !(c == '.'))
  match rest with
  | [] => (digitsToNat ip).map (fun n => (n : ℚ))
  | _ :: fp => if fp.contains '.' then none else parseDecimalParts ip fp

/-- Parse an optionally signed decimal numeral (whitespace trimmed). -/
def parseFloatStr (s : String) : Option ℚ :=
  match (strStrip s).data with
  | [] => none
  | '-' :: cs => (parseUnsignedDecimal cs).map (fun q => -q)
  | '+' :: cs => parseUnsignedDecimal cs
  | cs => parseUnsignedDecimal cs

/-- Truncation toward zero, as Python's `int()` on a float. -/
def ratTrunc (q : ℚ) : ℤ := Int.tdiv q.num (q.den : ℤ)

/-- Modelled from the spec: `to_int` is imported from
`dataset_builder.merge_sqlite_datasets`, which is not in the repository
snapshot.  Spec §4.2: attempt a numeric parse; on failure or null input return
an unset value rather than failing; no exception ever propagates. -/
def to_int (v : Val) : Val :=
  match v with
  | vnull => vnull
  | vbool b => vnum (if b then 1 else 0)
  | vnum q => vnum ((ratTrunc q : ℤ) : ℚ)
  | vstr s =>
    match parseIntStr s with
    | some n => vnum ((n : ℤ) : ℚ)
    | none => vnull
  | _ => vnull

/-- Modelled from the spec: `to_float` is imported from
`dataset_builder.merge_sqlite_datasets`, not in the repository snapshot.
Spec §4.2: attempt a numeric parse; on failure or null input return an unset
value; no exception ever propagates. -/
def to_float (v : Val) : Val :=
  match v with
  | vnull => vnull
  | vbool b => vnum (if b then 1 else 0)
  | vnum q => vnum q
  | vstr s =>
    match parseFloatStr s with
    | some q => vnum q
    | none => vnull
  | _ => vnull

/-- Modelled from the spec: `to_bool` is imported from
`dataset_builder.merge_sqlite_datasets`, not in the repository snapshot.
Spec §4.2: normalize truthy/falsy textual and numeric representations
(`"true"`/`"false"`/`1`/`0`/`"yes"`/`"no"` style) to a strict boolean or an
unset value; no exception ever propagates. -/
def to_bool (v : Val) : Val :=
  match v with
  | vbool b => vbool b
  | vnum q => if q == 1 then vbool true else if q == 0 then vbool false else vnull
  | vstr s =>
    let t := strLower (strStrip s)
    if t == "true" || t == "yes" || t == "1" then vbool true
    else if t == "false" || t == "no" || t == "0" then vbool false
    else vnull
  | _ => vnull

/-- Modelled from the spec: `PRIORITY` is imported from
`dataset_builder.merge_sqlite_datasets`, not in the repository snapshot.
Spec §3/§8: a mapping from source name to integer precedence; §8 gives
Source B (marketcheck) priority 10 and Source A (autodev) priority 5. -/
def PRIORITY : List (String × ℕ) := [("marketcheck", 10), ("autodev", 5)]

/-- Lookup in the priority table (first binding). -/
def priorityLookup : List (String × ℕ) → String → Option ℕ
  | [], _ => none
  | (k, n) :: rest, key => if k == key then some n else priorityLookup rest key

/-- Python `PRIORITY.get(source, 0)`: a source name absent from the table (or
a non-string value) defaults to priority 0. -/
def priorityOf (v : Val) : ℕ :=
  match v with
  | vstr s => (priorityLookup PRIORITY s).getD 0
  | _ => 0

/-- Modelled from the spec: `UNIFIED_COLUMNS` is imported from
`dataset_builder.merge_sqlite_datasets`, not in the repository snapshot.
Spec §4.1: a fixed, ordered column list that is the single source of truth for
the schema shape; modelled as the union of the columns populated by the two
normalizers in `fetch_unified_dataset.py`. -/
def UNIFIED_COLUMNS : List String :=
  ["vin", "listing_id", "heading", "source", "price", "mileage", "msrp",
   "listing_created_at", "online", "data_fetched_at", "year", "make", "model",
   "trim", "body_style", "drivetrain", "engine", "fuel_type", "transmission",
   "doors", "seats", "exterior_color", "interior_color", "inventory_type",
   "is_used", "is_cpo", "is_certified", "stock_number", "dealer_name",
   "dealer_city", "dealer_state", "dealer_zip", "dealer_phone",
   "dealer_latitude", "dealer_longitude", "primary_image_url", "photo_count",
   "vdp_url", "carfax_url", "dealer_json", "build_json", "media_json",
   "data_source", "carfax_one_owner", "carfax_clean_title", "raw_json",
   "build_year", "build_make", "build_model", "build_trim", "build_body_type",
   "build_fuel_type", "build_transmission", "build_drivetrain", "build_engine",
   "build_doors", "build_std_seating", "ref_price", "price_change_percent",
   "ref_price_dt", "ref_miles", "ref_miles_dt", "first_seen_at",
   "first_seen_at_date", "first_seen_at_source", "first_seen_at_source_date",
   "first_seen_at_mc", "first_seen_at_mc_date", "last_seen_at",
   "last_seen_at_date", "scraped_at", "scraped_at_date", "base_ext_color",
   "base_int_color", "dom", "dom_180", "dom_active", "dos_active",
   "seller_type", "availability_status", "in_transit", "model_code",
   "dealer_country", "dealer_type", "dealer_msa_code", "dist",
   "financing_options_json", "leasing_options_json", "mc_dealership_json",
   "build_version", "build_vehicle_type", "build_cylinders",
   "build_highway_mpg", "build_city_mpg"]

/-- Modelled from the spec: `empty_record` is imported from
`dataset_builder.merge_sqlite_datasets`, not in the repository snapshot.
Spec §4.1: returns a record with ALL unified columns present and set to an
unset (null-equivalent) value. -/
def empty_record : Dict := UNIFIED_COLUMNS.map (fun c => (c, vnull))

/-- Python `str()` on the scalar values it is applied to here (`seats`, an
integer produced by `to_int`). -/
def pyStr (v : Val) : String :=
  match v with
  | vstr s => s
  | vbool b => if b then "True" else "False"
  | vnull => "None"
  | vnum q => if q.den == 1 then toString q.num else toString q
  | w => serialize w

/-- Python `v is None`. -/
def isNullV : Val → Bool
  | vnull => true
  | _ => false

/-- Python `record.setdefault(dst, record.get(src))`: the cross-field backfill
idiom of lines 165-174 and 295-304. -/
def backfill (d : Dict) (dst src : String) : Dict :=
  dsetdefault d dst (dget d src)

/-- Python `if cond: record[key] = v` (line 162-163). -/
def dsetWhen (c : Bool) (d : Dict) (key : String) (v : Val) : Dict :=
  if c then dset d key v else d

/-- Lines 175-177: `seats = record.get("seats"); if seats is not None:
record.setdefault("build_std_seating", str(seats))`. -/
def seatsBackfill (d : Dict) : Dict :=
  if isNullV (dget d "seats") then d
  else dsetdefault d "build_std_seating" (vstr (pyStr (dget d "seats")))

/-- The VIN an Auto.dev listing carries: `vehicle.get("vin")` after the
defensive `listing.get("vehicle") or {}` (lines 101 and 107). -/
def autodevVin (listing : Val) : Val :=
  vget (pyOr (vget listing "vehicle") (vobj [])) "vin"

/-- The unified record built by `normalize_autodev_listing` (lines 111-177)
once the VIN guard has passed. -/
def autodevRecord (listing : Val) (fetched_at : String) : Dict :=
  let vehicle := pyOr (vget listing "vehicle") (vobj [])
  let retail := pyOr (vget listing "retailListing") (vobj [])
  let dealer_details := pyOr (vget retail "dealerDetails") (vobj [])
  let location := pyOr (vget listing "location") (vlist [])
  let photos := pyOr (vget retail "photos") (vlist [])
  let vin := vget vehicle "vin"
  let record := dupdate empty_record
      [("vin", vin),
       ("listing_id", pyOr (vget listing "id") (vget listing "listingId")),
       ("heading", pyOr (vget retail "title") (vget vehicle "model")),
       ("source", vstr "autodev"),
       ("price", to_int (vget retail "price")),
       ("mileage", to_int (vget retail "miles")),
       ("msrp", to_int (vget retail "msrp")),
       ("listing_created_at", vget listing "createdAt"),
       ("online", to_bool (vget listing "online")),
       ("data_fetched_at", vstr fetched_at),
       ("year", to_int (vget vehicle "year")),
       ("make", vget vehicle "make"),
       ("model", vget vehicle "model"),
       ("trim", vget vehicle "trim"),
       ("body_style", vget vehicle "bodyStyle"),
       ("drivetrain", vget vehicle "drivetrain"),
       ("engine", vget vehicle "engine"),
       ("fuel_type", vget vehicle "fuel"),
       ("transmission", vget vehicle "transmission"),
       ("doors", to_int (vget vehicle "doors")),
       ("seats", to_int (vget vehicle "seats")),
       ("exterior_color", vget vehicle "exteriorColor"),
       ("interior_color", vget vehicle "interiorColor"),
       ("inventory_type",
         match vget retail "used" with
         | vbool true => vstr "used"
         | vbool false => vstr "new"
         | _ => vnull),
       ("is_used", to_bool (vget retail "used")),
       ("is_cpo", to_bool (vget retail "cpo")),
       ("is_certified", to_bool (vget retail "cpo")),
       ("stock_number", vget retail "stockNumber"),
       ("dealer_name", pyOr (vget retail "dealer") (vget dealer_details "name")),
       ("dealer_city", pyOr (vget retail "city") (vget dealer_details "city")),
       ("dealer_state", pyOr (vget retail "state") (vget dealer_details "state")),
       ("dealer_zip", pyOr (vget retail "zip") (vget dealer_details "zip")),
       ("dealer_phone", pyOr (vget retail "phone") (vget dealer_details "phone")),
       ("dealer_latitude",
         to_float (if 1 < listLen location then listIdx location 1
                   else vget dealer_details "latitude")),
       ("dealer_longitude",
         to_float (if truthy location then listIdx location 0
                   else vget dealer_details "longitude")),
       ("primary_image_url",
         pyOr (vget retail "primaryImage")
              (if truthy photos then listIdx photos 0 else vnull)),
       ("photo_count",
         pyOr (to_int (vget retail "photoCount"))
              (if truthy photos then vnum (listLen photos : ℚ) else vnull)),
       ("vdp_url", vget retail "vdp"),
       ("carfax_url", vget retail "carfaxUrl"),
       ("dealer_json",
         if truthy dealer_details then vstr (serialize dealer_details) else vnull),
       ("build_json",
         if truthy vehicle then vstr (serialize vehicle) else vnull),
       ("data_source", vstr "autodev"),
       ("carfax_one_owner", to_bool (vget retail "carfaxOneOwner")),
       ("carfax_clean_title", to_bool (vget retail "carfaxCleanTitle")),
       ("raw_json", vstr (serialize listing))]
    let record := dsetWhen (truthy photos) record "media_json"
      (vstr (serialize (vobj [("photos", photos)])))
    let record := backfill record "build_year" "year"
    let record := backfill record "build_make" "make"
    let record := backfill record "build_model" "model"
    let record := backfill record "build_trim" "trim"
    let record := backfill record "build_body_type" "body_style"
    let record := backfill record "build_fuel_type" "fuel_type"
    let record := backfill record "build_transmission" "transmission"
    let record := backfill record "build_drivetrain" "drivetrain"
    let record := backfill record "build_engine" "engine"
    let record := backfill record "build_doors" "doors"
    seatsBackfill record

/-- `normalize_autodev_listing` from `fetch_unified_dataset.py` (lines
100-179): return `none` when the mandatory VIN is missing (lines 107-109),
otherwise the unified record of `autodevRecord`. -/
def normalize_autodev_listing (listing : Val) (fetched_at : String) : Option Dict :=
  if truthy (autodevVin listing) then some (autodevRecord listing fetched_at)
  else none

/-- The unified record built by `normalize_marketcheck_listing` (lines
187-304) once the VIN guard has passed. -/
def marketcheckRecord (listing : Val) (fetched_at : String) : Dict :=
  let vin := vget listing "vin"
  let build := pyOr (vget listing "build") (vobj [])
    let dealer := pyOr (vget listing "dealer") (vobj [])
    let mc_dealership := pyOr (vget listing "mc_dealership") (vobj [])
    let financing := pyOr (vget listing "financing_options") (vobj [])
    let leasing := pyOr (vget listing "leasing_options") (vobj [])
    let media := pyOr (vget listing "media") (vobj [])
    let photo_links := pyOr (vget media "photo_links") (vlist [])
    let inventory_type := vget listing "inventory_type"
    let is_used : Val :=
      match inventory_type with
      | vstr s =>
        let normalized := strLower (strStrip s)
        if normalized == "used" then vnum 1
        else if normalized == "new" then vnum 0
        else vnull
      | _ => vnull
    let record := dupdate empty_record
      [("vin", vin),
       ("listing_id", vget listing "id"),
       ("heading", vget listing "heading"),
       ("source", vstr "marketcheck"),
       ("price", to_int (vget listing "price")),
       ("mileage", to_int (vget listing "miles")),
       ("msrp", to_int (vget listing "msrp")),
       ("ref_price", to_int (vget listing "ref_price")),
       ("price_change_percent", to_float (vget listing "price_change_percent")),
       ("ref_price_dt", to_int (vget listing "ref_price_dt")),
       ("ref_miles", to_int (vget listing "ref_miles")),
       ("ref_miles_dt", to_int (vget listing "ref_miles_dt")),
       ("first_seen_at", to_int (vget listing "first_seen_at")),
       ("first_seen_at_date", vget listing "first_seen_at_date"),
       ("first_seen_at_source", to_int (vget listing "first_seen_at_source")),
       ("first_seen_at_source_date", vget listing "first_seen_at_source_date"),
       ("first_seen_at_mc", to_int (vget listing "first_seen_at_mc")),
       ("first_seen_at_mc_date", vget listing "first_seen_at_mc_date"),
       ("last_seen_at", to_int (vget listing "last_seen_at")),
       ("last_seen_at_date", vget listing "last_seen_at_date"),
       ("scraped_at", to_int (vget listing "scraped_at")),
       ("scraped_at_date", vget listing "scraped_at_date"),
       ("data_fetched_at", vstr fetched_at),
       ("exterior_color", vget listing "exterior_color"),
       ("interior_color", vget listing "interior_color"),
       ("base_ext_color", vget listing "base_ext_color"),
       ("base_int_color", vget listing "base_int_color"),
       ("dom", to_int (vget listing "dom")),
       ("dom_180", to_int (vget listing "dom_180")),
       ("dom_active", to_int (vget listing "dom_active")),
       ("dos_active", to_int (vget listing "dos_active")),
       ("seller_type", vget listing "seller_type"),
       ("inventory_type", inventory_type),
       ("availability_status", vget listing "availability_status"),
       ("is_certified", to_bool (vget listing "is_certified")),
       ("is_cpo", to_bool (vget listing "is_certified")),
       ("is_used", is_used),
       ("in_transit", to_bool (vget listing "in_transit")),
       ("model_code", vget listing "model_code"),
       ("stock_number", vget listing "stock_no"),
       ("dealer_name", vget dealer "name"),
       ("dealer_city", vget dealer "city"),
       ("dealer_state", vget dealer "state"),
       ("dealer_zip", vget dealer "zip"),
       ("dealer_phone", vget dealer "phone"),
       ("dealer_latitude", to_float (vget dealer "latitude")),
       ("dealer_longitude", to_float (vget dealer "longitude")),
       ("dealer_country", vget dealer "country"),
       ("dealer_type", vget dealer "dealer_type"),
       ("dealer_msa_code", vget dealer "msa_code"),
       ("dist", to_float (vget listing "dist")),
       ("vdp_url", vget listing "vdp_url"),
       ("carfax_one_owner", to_bool (vget listing "carfax_1_owner")),
       ("carfax_clean_title", to_bool (vget listing "carfax_clean_title")),
       ("primary_image_url",
         if truthy photo_links then listIdx photo_links 0 else vnull),
       ("photo_count",
         if truthy photo_links then vnum (listLen photo_links : ℚ)
         else to_int (vget listing "photo_count")),
       ("financing_options_json",
         if truthy financing then vstr (serialize financing) else vnull),
       ("leasing_options_json",
         if truthy leasing then vstr (serialize leasing) else vnull),
       ("media_json", if truthy media then vstr (serialize media) else vnull),
       ("dealer_json", if truthy dealer then vstr (serialize dealer) else vnull),
       ("mc_dealership_json",
         if truthy mc_dealership then vstr (serialize mc_dealership) else vnull),
       ("build_json", if truthy build then vstr (serialize build) else vnull),
       ("data_source", pyOr (vget listing "data_source") (vstr "marketcheck")),
       ("raw_json", vstr (serialize listing))]
    let record := dupdate record
      [("build_year", to_int (vget build "year")),
       ("build_make", vget build "make"),
       ("build_model", vget build "model"),
       ("build_trim", vget build "trim"),
       ("build_version", vget build "version"),
       ("build_body_type", vget build "body_type"),
       ("build_vehicle_type", vget build "vehicle_type"),
       ("build_transmission", vget build "transmission"),
       ("build_drivetrain", vget build "drivetrain"),
       ("build_fuel_type", vget build "fuel_type"),
       ("build_engine", vget build "engine"),
       ("build_doors", to_int (vget build "doors")),
       ("build_cylinders", to_int (vget build "cylinders")),
       ("build_std_seating", vget build "std_seating"),
       ("build_highway_mpg", to_int (vget build "highway_mpg")),
       ("build_city_mpg", to_int (vget build "city_mpg"))]
    let record := backfill record "year" "build_year"
    let record := backfill record "make" "build_make"
    let record := backfill record "model" "build_model"
    let record := backfill record "trim" "build_trim"
    let record := backfill record "body_style" "build_body_type"
    let record := backfill record "drivetrain" "build_drivetrain"
    let record := backfill record "engine" "build_engine"
    let record := backfill record "fuel_type" "build_fuel_type"
    let record := backfill record "transmission" "build_transmission"
    let record := backfill record "doors" "build_doors"
    record

/-- `normalize_marketcheck_listing` from `fetch_unified_dataset.py` (lines
182-306): return `none` when the mandatory VIN is missing (lines 183-185),
otherwise the unified record of `marketcheckRecord`. -/
def normalize_marketcheck_listing (listing : Val) (fetched_at : String) : Option Dict :=
  if truthy (vget listing "vin") then some (marketcheckRecord listing fetched_at)
  else none

/-- The persisted store: one row per VIN value (the SQLite table's uniqueness
constraint on `vin`), each row holding the unified columns. -/
abbrev Store := List (Val × Dict)

/-- `SELECT ... FROM unified_vehicle_listings WHERE vin = ?`: the stored row
for a VIN value, if any. -/
def storeLookup : Store → Val → Option Dict
  | [], _ => none
  | (k, r) :: rest, vin => if valBeq k vin then some r else storeLookup rest vin

/-- `values = [record.get(column) for column in UNIFIED_COLUMNS]`: the row
actually written, one value per unified column. -/
def projectRow (record : Dict) : Dict :=
  UNIFIED_COLUMNS.map (fun c => (c, dget record c))

/-- `INSERT OR REPLACE` keyed by VIN: replace the existing row for this VIN or
append a new one. -/
def storeReplace : Store → Val → Dict → Store
  | [], vin, row => [(vin, row)]
  | (k, r) :: rest, vin, row =>
    if valBeq k vin then (k, row) :: rest else (k, r) :: storeReplace rest vin row

/-- `UnifiedWriter.upsert` from `fetch_unified_dataset.py` (lines 61-81):
reject records without a truthy `vin` or `source`; reject when the stored
row's source has strictly greater priority; otherwise fully replace the row.
Returns the write flag together with the resulting store state. -/
def upsert (store : Store) (record : Dict) : Bool × Store :=
  let vin := dget record "vin"
  if truthy vin then
    let source := dget record "source"
    if truthy source then
      match storeLookup store vin with
      | some existing =>
        if priorityOf (dget existing "source") > priorityOf source then
          (false, store)
        else (true, storeReplace store vin (projectRow record))
      | none => (true, storeReplace store vin (projectRow record))
    else (false, store)
  else (false, store)

/-- Is the value a dict? -/
def isObj : Val → Bool
  | vobj _ => true
  | _ => false

/-- Is the value a list? -/
def isList : Val → Bool
  | vlist _ => true
  | _ => false

/-- Truthy values in this position must be dicts (Python would raise
`AttributeError` on `.get` otherwise). -/
def objIfTruthy (v : Val) : Bool := !truthy v || isObj v

/-- Truthy values in this position must be lists (Python indexing/`len` would
behave differently otherwise). -/
def listIfTruthy (v : Val) : Bool := !truthy v || isList v

/-- Well-formedness of an Auto.dev raw listing: the payload is a dict and each
destructured sub-object (`vehicle`, `retailListing`, `location`,
`retailListing.dealerDetails`, `retailListing.photos`) is of the documented
shape when present and truthy — the domain on which the Python normalizer does
not raise. -/
def autodevWF (listing : Val) : Bool :=
  isObj listing
  && objIfTruthy (vget listing "vehicle")
  && objIfTruthy (vget listing "retailListing")
  && listIfTruthy (vget listing "location")
  && objIfTruthy (vget (pyOr (vget listing "retailListing") (vobj [])) "dealerDetails")
  && listIfTruthy (vget (pyOr (vget listing "retailListing") (vobj [])) "photos")

/-- Well-formedness of a Marketcheck raw listing: the payload is a dict and
each destructured sub-object (`build`, `dealer`, `mc_dealership`,
`financing_options`, `leasing_options`, `media`, `media.photo_links`) is of
the documented shape when present and truthy. -/
def marketcheckWF (listing : Val) : Bool :=
  isObj listing
  && objIfTruthy (vget listing "build")
  && objIfTruthy (vget listing "dealer")
  && objIfTruthy (vget listing "mc_dealership")
  && objIfTruthy (vget listing "financing_options")
  && objIfTruthy (vget listing "leasing_options")
  && objIfTruthy (vget listing "media")
  && listIfTruthy (vget (pyOr (vget listing "media") (vobj [])) "photo_links")

/-! ### Dictionary lemmas shared by the claim proofs -/

theorem lookupFirst_dset_ne (d : Dict) (k key : String) (v : Val)
    (h : (k == key) = false) :
    lookupFirst (dset d k v) key = lookupFirst d key := by
  induction d with
  | nil => simp [dset, lookupFirst, h]
  | cons p rest ih =>
    obtain ⟨k', x⟩ := p
    by_cases hk : k' = k
    · subst hk
      simp [dset, lookupFirst, h]
    · have hk2 : (k' == k) = false := beq_eq_false_iff_ne.mpr hk
      simp [dset, hk2, lookupFirst, ih]

theorem dget_dset_ne (d : Dict) (k key : String) (v : Val)
    (h : (k == key) = false) :
    dget (dset d k v) key = dget d key := by
  simp [dget, lookupFirst_dset_ne d k key v h]

theorem lookupFirst_dset_eq (d : Dict) (k : String) (v : Val) :
    lookupFirst (dset d k v) k = some v := by
  induction d with
  | nil => simp [dset, lookupFirst]
  | cons p rest ih =>
    obtain ⟨k', x⟩ := p
    by_cases hk : k' = k
    · subst hk
      simp [dset, lookupFirst]
    · have hk2 : (k' == k) = false := beq_eq_false_iff_ne.mpr hk
      simp [dset, hk2, lookupFirst, ih]

theorem dget_dset_eq (d : Dict) (k : String) (v : Val) :
    dget (dset d k v) k = v := by
  simp [dget, lookupFirst_dset_eq]

theorem lookupFirst_append_ne (d : Dict) (k key : String) (v : Val)
    (h : (k == key) = false) :
    lookupFirst (d ++ [(k, v)]) key = lookupFirst d key := by
  induction d with
  | nil => simp [lookupFirst, h]
  | cons p rest ih =>
    obtain ⟨k', x⟩ := p
    by_cases hk : k' = key
    · subst hk
      simp [lookupFirst]
    · have hk2 : (k' == key) = false := beq_eq_false_iff_ne.mpr hk
      simp [lookupFirst, hk2, ih]

theorem dget_dsetdefault_ne (d : Dict) (k key : String) (v : Val)
    (h : (k == key) = false) :
    dget (dsetdefault d k v) key = dget d key := by
  unfold dsetdefault
  split
  · rfl
  · simp [dget, lookupFirst_append_ne d k key v h]

theorem dget_ite_dset_ne (c : Prop) [Decidable c] (d : Dict) (k key : String)
    (v : Val) (h : (k == key) = false) :
    dget (if c then dset d k v else d) key = dget d key := by
  split
  · exact dget_dset_ne d k key v h
  · rfl

theorem dget_ite_dsetdefault_ne (c : Prop) [Decidable c] (d : Dict)
    (k key : String) (v : Val) (h : (k == key) = false) :
    dget (if c then d else dsetdefault d k v) key = dget d key := by
  split
  · rfl
  · exact dget_dsetdefault_ne d k key v h

theorem dget_backfill_ne (d : Dict) (dst src key : String)
    (h : (dst == key) = false) :
    dget (backfill d dst src) key = dget d key :=
  dget_dsetdefault_ne d dst key (dget d src) h

theorem dget_dsetWhen_ne (c : Bool) (d : Dict) (k key : String) (v : Val)
    (h : (k == key) = false) :
    dget (dsetWhen c d k v) key = dget d key := by
  unfold dsetWhen
  split
  · exact dget_dset_ne d k key v h
  · rfl

theorem dget_seatsBackfill_ne (d : Dict) (key : String)
    (h : ("build_std_seating" == key) = false) :
    dget (seatsBackfill d) key = dget d key := by
  unfold seatsBackfill
  split
  · rfl
  · exact dget_dsetdefault_ne d _ key _ h

theorem dget_map_vnull (l : List String) (key : String) :
    dget (l.map (fun c => (c, vnull))) key = vnull := by
  induction l with
  | nil => rfl
  | cons a l ih =>
    by_cases h : a = key
    · subst h
      simp [dget, lookupFirst]
    · have h2 : (a == key) = false := beq_eq_false_iff_ne.mpr h
      simpa [dget, lookupFirst, h2] using ih

theorem dget_empty_record (key : String) : dget empty_record key = vnull :=
  dget_map_vnull UNIFIED_COLUMNS key

theorem lookupFirst_map_vnull (l : List String) (key : String) :
    lookupFirst (l.map (fun c => (c, vnull))) key =
      if key ∈ l then some vnull else none := by
  induction l with
  | nil => simp [lookupFirst]
  | cons a l ih =>
    by_cases h : a = key
    · subst h
      simp [lookupFirst]
    · have h2 : (a == key) = false := beq_eq_false_iff_ne.mpr h
      simp [lookupFirst, h2, ih, Ne.symm h]

theorem lookupFirst_nil (key : String) :
    lookupFirst [] key = none := rfl

theorem lookupFirst_cons (k : String) (x : Val) (rest : List (String × Val))
    (key : String) :
    lookupFirst ((k, x) :: rest) key =
      if k == key then some x else lookupFirst rest key := rfl

theorem lookupFirst_dsetWhen_ne (c : Bool) (d : Dict) (k key : String) (v : Val)
    (h : (k == key) = false) :
    lookupFirst (dsetWhen c d k v) key = lookupFirst d key := by
  unfold dsetWhen
  split
  · exact lookupFirst_dset_ne d k key v h
  · rfl

theorem lookupFirst_empty_record (key : String) :
    lookupFirst empty_record key =
      if key ∈ UNIFIED_COLUMNS then some vnull else none :=
  lookupFirst_map_vnull UNIFIED_COLUMNS key

/-- A `setdefault` whose key is already present in the dict is a no-op; in
particular every backfill of lines 165-174 / 295-304 is a no-op because
`empty_record` pre-populates every unified column (the C3 finding). -/
theorem backfill_eq_of_present (d : Dict) (dst src : String)
    (hp : (lookupFirst d dst).isSome = true) :
    backfill d dst src = d := by
  unfold backfill dsetdefault
  simp [hp]

theorem seatsBackfill_eq_of_present (d : Dict)
    (hp : (lookupFirst d "build_std_seating").isSome = true) :
    seatsBackfill d = d := by
  unfold seatsBackfill
  split
  · rfl
  · unfold dsetdefault
    simp [hp]

theorem normalize_autodev_some (l : Val) (t : String)
    (h : truthy (autodevVin l) = true) :
    normalize_autodev_listing l t = some (autodevRecord l t) := by
  simp [normalize_autodev_listing, h]

theorem normalize_marketcheck_some (l : Val) (t : String)
    (h : truthy (vget l "vin") = true) :
    normalize_marketcheck_listing l t = some (marketcheckRecord l t) := by
  simp [normalize_marketcheck_listing, h]

/-! ### Claim theorems -/

/-- C1: for every record with truthy `vin` and `source` passed to
`UnifiedWriter.upsert`: if a row for that VIN exists and the stored source's
priority is strictly greater than the incoming source's priority, `upsert`
returns `false` and the store is unchanged; otherwise (no existing row, equal
priority, or strictly higher incoming priority) it returns `true` and the
incoming record's full column projection replaces any existing row for that
VIN, with no field-level merging. -/
theorem upsert_priority_precedence (store : Store) (r : Dict)
    (hv : truthy (dget r "vin") = true) (hs : truthy (dget r "source") = true) :
    (∀ existing, storeLookup store (dget r "vin") = some existing →
      (priorityOf (dget existing "source") > priorityOf (dget r "source") →
        upsert store r = (false, store)) ∧
      (priorityOf (dget existing "source") ≤ priorityOf (dget r "source") →
        upsert store r =
          (true, storeReplace store (dget r "vin") (projectRow r)))) ∧
    (storeLookup store (dget r "vin") = none →
      upsert store r = (true, storeReplace store (dget r "vin") (projectRow r))) := by
  constructor
  · intro existing heq
    constructor
    · intro hgt
      simp [upsert, hv, hs, heq, hgt]
    · intro hle
      simp [upsert, hv, hs, heq, Nat.not_lt.mpr hle]
  · intro heq
    simp [upsert, hv, hs, heq]

/-- C1 witness: a stored marketcheck row (priority 10) rejects an incoming
autodev record (priority 5) for the same VIN, leaving the store unchanged. -/
theorem upsert_priority_precedence_witness :
    upsert [(vstr "1FAKE000000000001", [("source", vstr "marketcheck")])]
      [("vin", vstr "1FAKE000000000001"), ("source", vstr "autodev")]
      = (false, [(vstr "1FAKE000000000001", [("source", vstr "marketcheck")])]) :=
  ((upsert_priority_precedence
      [(vstr "1FAKE000000000001", [("source", vstr "marketcheck")])]
      [("vin", vstr "1FAKE000000000001"), ("source", vstr "autodev")]
      rfl rfl).1 [("source", vstr "marketcheck")] rfl).1 (by decide)

/-- C4: a record whose `vin` or `source` is not truthy is rejected by
`upsert`: it returns `false` and the store is unchanged. -/
theorem upsert_rejects_missing_identity (store : Store) (r : Dict) :
    (truthy (dget r "vin") = false → upsert store r = (false, store)) ∧
    (truthy (dget r "source") = false → upsert store r = (false, store)) := by
  constructor
  · intro h
    simp [upsert, h]
  · intro h
    by_cases hv : truthy (dget r "vin") = true
    · simp [upsert, hv, h]
    · simp only [Bool.not_eq_true] at hv
      simp [upsert, hv]

/-- C4 witness: a record without a vin, and one without a source, are both
rejected with the store untouched. -/
theorem upsert_rejects_missing_identity_witness :
    upsert [] [("source", vstr "autodev")] = (false, []) ∧
    upsert [] [("vin", vstr "5YJ3E1EA7KF000000")] = (false, []) :=
  ⟨(upsert_rejects_missing_identity [] _).1 rfl,
   (upsert_rejects_missing_identity [] _).2 rfl⟩

/-- C9: a source name absent from the PRIORITY table gets priority 0 in
`upsert`'s comparison: an incoming record from an unknown source is rejected
whenever the stored row's source has positive priority, and a stored row from
an unknown source is replaced by any incoming record with truthy vin and
source. -/
theorem upsert_unknown_source_priority_zero (s : String)
    (hs : priorityLookup PRIORITY s = none) (store : Store) (r : Dict)
    (existing : Dict) :
    priorityOf (vstr s) = 0 ∧
    (truthy (dget r "vin") = true → dget r "source" = vstr s →
      storeLookup store (dget r "vin") = some existing →
      0 < priorityOf (dget existing "source") →
      upsert store r = (false, store)) ∧
    (truthy (dget r "vin") = true → truthy (dget r "source") = true →
      storeLookup store (dget r "vin") = some existing →
      dget existing "source" = vstr s →
      upsert store r = (true, storeReplace store (dget r "vin") (projectRow r))) := by
  have h0 : priorityOf (vstr s) = 0 := by simp [priorityOf, hs]
  refine ⟨h0, ?_, ?_⟩
  · intro hv hsrc heq hpos
    by_cases ht : truthy (vstr s) = true
    · have hgt : priorityOf (dget existing "source") > priorityOf (vstr s) := by
        rw [h0]
        exact hpos
      simp [upsert, hv, hsrc, ht, heq, hgt]
    · simp only [Bool.not_eq_true] at ht
      simp [upsert, hv, hsrc, ht]
  · intro hv hsrc heq hex
    have hngt : ¬ priorityOf (dget existing "source") > priorityOf (dget r "source") := by
      rw [hex, h0]
      exact Nat.not_lt_zero _
    simp [upsert, hv, hsrc, heq, hngt]

/-- C9 witness: "craigslist" is not in PRIORITY, so it gets priority 0: it is
rejected against a stored marketcheck row, and a stored "craigslist" row is
replaced by an incoming autodev record. -/
theorem upsert_unknown_source_priority_zero_witness :
    priorityOf (vstr "craigslist") = 0 ∧
    upsert [(vstr "WBA000000000001", [("source", vstr "marketcheck")])]
        [("vin", vstr "WBA000000000001"), ("source", vstr "craigslist")]
      = (false, [(vstr "WBA000000000001", [("source", vstr "marketcheck")])]) ∧
    upsert [(vstr "WBA000000000001", [("source", vstr "craigslist")])]
        [("vin", vstr "WBA000000000001"), ("source", vstr "autodev")]
      = (true,
         storeReplace [(vstr "WBA000000000001", [("source", vstr "craigslist")])]
           (vstr "WBA000000000001")
           (projectRow [("vin", vstr "WBA000000000001"), ("source", vstr "autodev")])) :=
  ⟨(upsert_unknown_source_priority_zero "craigslist" rfl [] [] []).1,
   ((upsert_unknown_source_priority_zero "craigslist" rfl _ _ _).2.1
      rfl rfl rfl (by decide)),
   ((upsert_unknown_source_priority_zero "craigslist" rfl _ _ _).2.2
      rfl rfl rfl rfl)⟩

/-- C2: for every well-formed raw listing whose mandatory VIN field is not
truthy, both normalizers return `none`, regardless of the other fields. -/
theorem normalizers_none_without_vin (la lm : Val) (t u : String)
    (hA : autodevWF la = true) (hAv : truthy (autodevVin la) = false)
    (hM : marketcheckWF lm = true) (hMv : truthy (vget lm "vin") = false) :
    normalize_autodev_listing la t = none ∧
    normalize_marketcheck_listing lm u = none := by
  constructor
  · simp [normalize_autodev_listing, hAv]
  · simp [normalize_marketcheck_listing, hMv]

/-- C2 witness: listings with other fields but no VIN produce no record. -/
theorem normalizers_none_without_vin_witness :
    normalize_autodev_listing
        (vobj [("retailListing", vobj [("price", vnum 15000)])]) "2024-01-01" = none ∧
    normalize_marketcheck_listing
        (vobj [("heading", vstr "2020 Toyota")]) "2024-01-01" = none :=
  normalizers_none_without_vin _ _ _ _ rfl rfl rfl rfl

/-- C10: an empty-string vin or source is treated like an absent one: both
normalizers return `none` when the VIN field is the empty string, and `upsert`
rejects without writing when `vin` or `source` is the empty string. -/
theorem empty_string_treated_as_absent (la lm : Val) (t u : String)
    (store : Store) (r1 r2 : Dict)
    (hA : autodevWF la = true) (hAv : autodevVin la = vstr "")
    (hM : marketcheckWF lm = true) (hMv : vget lm "vin" = vstr "")
    (h1 : dget r1 "vin" = vstr "")
    (h2s : dget r2 "source" = vstr "") :
    normalize_autodev_listing la t = none ∧
    normalize_marketcheck_listing lm u = none ∧
    upsert store r1 = (false, store) ∧
    upsert store r2 = (false, store) := by
  refine ⟨?_, ?_, ?_, ?_⟩
  · simp [normalize_autodev_listing, hAv, truthy]
  · simp [normalize_marketcheck_listing, hMv, truthy]
  · simp [upsert, h1, truthy]
  · simp [upsert, h2s, truthy]

/-- C10 witness: empty-string VINs and sources, concretely. -/
theorem empty_string_treated_as_absent_witness :
    normalize_autodev_listing
        (vobj [("vehicle", vobj [("vin", vstr "")])]) "2024-01-01" = none ∧
    normalize_marketcheck_listing (vobj [("vin", vstr "")]) "2024-01-01" = none ∧
    upsert [] [("vin", vstr ""), ("source", vstr "autodev")] = (false, []) ∧
    upsert [] [("vin", vstr "JM1BL000000000001"), ("source", vstr "")] = (false, []) :=
  empty_string_treated_as_absent
    (vobj [("vehicle", vobj [("vin", vstr "")])]) (vobj [("vin", vstr "")])
    "2024-01-01" "2024-01-01" []
    [("vin", vstr ""), ("source", vstr "autodev")]
    [("vin", vstr "JM1BL000000000001"), ("source", vstr "")]
    rfl rfl rfl rfl rfl rfl

/-- C7: the coercion functions are total (no exception can propagate, they
are functions into `Val`): `to_int` and `to_float` return the unset value on
null input and otherwise either parse to a number or return unset, and
`to_bool` always returns a strict boolean or the unset value. -/
theorem coercions_total_and_null_safe :
    (to_int vnull = vnull ∧ to_float vnull = vnull ∧ to_bool vnull = vnull) ∧
    (∀ v, to_int v = vnull ∨ ∃ n : ℤ, to_int v = vnum (n : ℚ)) ∧
    (∀ v, to_float v = vnull ∨ ∃ q : ℚ, to_float v = vnum q) ∧
    (∀ v, to_bool v = vbool true ∨ to_bool v = vbool false ∨ to_bool v = vnull) := by
  refine ⟨⟨rfl, rfl, rfl⟩, ?_, ?_, ?_⟩
  · intro v
    cases v with
    | vnull => exact Or.inl rfl
    | vbool b =>
      cases b
      · exact Or.inr ⟨0, rfl⟩
      · exact Or.inr ⟨1, rfl⟩
    | vnum q => exact Or.inr ⟨ratTrunc q, rfl⟩
    | vstr s =>
      cases hp : parseIntStr s with
      | none =>
        left
        simp [to_int, hp]
      | some n =>
        right
        exact ⟨n, by simp [to_int, hp]⟩
    | vlist xs => exact Or.inl rfl
    | vobj fs => exact Or.inl rfl
  · intro v
    cases v with
    | vnull => exact Or.inl rfl
    | vbool b =>
      cases b
      · exact Or.inr ⟨0, rfl⟩
      · exact Or.inr ⟨1, rfl⟩
    | vnum q => exact Or.inr ⟨q, rfl⟩
    | vstr s =>
      cases hp : parseFloatStr s with
      | none =>
        left
        simp [to_float, hp]
      | some q =>
        right
        exact ⟨q, by simp [to_float, hp]⟩
    | vlist xs => exact Or.inl rfl
    | vobj fs => exact Or.inl rfl
  · intro v
    cases v with
    | vnull => exact Or.inr (Or.inr rfl)
    | vbool b =>
      cases b
      · exact Or.inr (Or.inl rfl)
      · exact Or.inl rfl
    | vnum q =>
      simp only [to_bool]
      split
      · exact Or.inl rfl
      · split
        · exact Or.inr (Or.inl rfl)
        · exact Or.inr (Or.inr rfl)
    | vstr s =>
      simp only [to_bool]
      split
      · exact Or.inl rfl
      · split
        · exact Or.inr (Or.inl rfl)
        · exact Or.inr (Or.inr rfl)
    | vlist xs => exact Or.inr (Or.inr rfl)
    | vobj fs => exact Or.inr (Or.inr rfl)

/-- C3: the failing input of the backfill claim, evaluated on the code.  The
spec's set-if-absent reconciliation never fires: `empty_record` pre-populates
every unified column as a present key, and `dict.setdefault` only inserts for
absent KEYS, so an Auto.dev listing with `vehicle.year = 2020` and no
`build_year` yields `year = 2020` but `build_year` still unset — and
symmetrically a Marketcheck listing with `build.year = 2019` yields
`build_year = 2019` but `year` still unset. -/
theorem backfill_setdefault_never_fires :
    (normalize_autodev_listing
        (vobj [("vehicle",
                vobj [("vin", vstr "1FAKE000000000001"), ("year", vnum 2020)])])
        "2024-01-01T00:00:00").isSome = true ∧
    dget ((normalize_autodev_listing
        (vobj [("vehicle",
                vobj [("vin", vstr "1FAKE000000000001"), ("year", vnum 2020)])])
        "2024-01-01T00:00:00").getD []) "year" = vnum 2020 ∧
    dget ((normalize_autodev_listing
        (vobj [("vehicle",
                vobj [("vin", vstr "1FAKE000000000001"), ("year", vnum 2020)])])
        "2024-01-01T00:00:00").getD []) "build_year" = vnull ∧
    (normalize_marketcheck_listing
        (vobj [("vin", vstr "1FAKE000000000001"),
               ("build", vobj [("year", vnum 2019)])])
        "2024-01-01T00:00:00").isSome = true ∧
    dget ((normalize_marketcheck_listing
        (vobj [("vin", vstr "1FAKE000000000001"),
               ("build", vobj [("year", vnum 2019)])])
        "2024-01-01T00:00:00").getD []) "build_year" = vnum 2019 ∧
    dget ((normalize_marketcheck_listing
        (vobj [("vin", vstr "1FAKE000000000001"),
               ("build", vobj [("year", vnum 2019)])])
        "2024-01-01T00:00:00").getD []) "year" = vnull :=
  ⟨rfl, rfl, rfl, rfl, rfl, rfl⟩

/-- Check that every unified column outside `keep` is unset in `r`. -/
def othersUnset (r : Dict) (keep : List String) : Bool :=
  UNIFIED_COLUMNS.all (fun c => keep.contains c || isNullV (dget r c))

/-- C6 counterexample: a VIN-only Auto.dev listing necessarily carries its VIN
inside a truthy `vehicle` sub-object, so the normalizer serializes that
sub-object into `build_json` — a unified column outside the claimed
vin/source/listing-metadata set that is NOT unset. -/
theorem minimal_autodev_populates_build_json :
    (normalize_autodev_listing
        (vobj [("vehicle", vobj [("vin", vstr "1FAKE000000000001")])])
        "2024-01-01T00:00:00").isSome = true ∧
    UNIFIED_COLUMNS.contains "build_json" = true ∧
    (["vin", "source", "data_source", "data_fetched_at",
      "raw_json"].contains "build_json") = false ∧
    isNullV (dget ((normalize_autodev_listing
        (vobj [("vehicle", vobj [("vin", vstr "1FAKE000000000001")])])
        "2024-01-01T00:00:00").getD []) "build_json") = false ∧
    othersUnset ((normalize_autodev_listing
        (vobj [("vehicle", vobj [("vin", vstr "1FAKE000000000001")])])
        "2024-01-01T00:00:00").getD [])
      ["vin", "source", "data_source", "data_fetched_at", "raw_json"] = false :=
  ⟨rfl, rfl, rfl, rfl, rfl⟩

set_option maxHeartbeats 1600000 in
/-- C6 amended: for every raw listing that contains only a truthy VIN (its
carrier sub-object and nothing else), each normalizer returns a record — it is
a total function, so no exception is possible — in which every unified column
other than vin, source and the listing-metadata fields (data_source,
data_fetched_at, raw_json) is unset, EXCEPT that the Auto.dev normalizer also
populates build_json (the serialization of the vehicle sub-object that must be
present to carry the VIN). -/
theorem minimal_listing_only_identity_and_metadata (v t : String)
    (h : (v == "") = false) :
    (normalize_autodev_listing
        (vobj [("vehicle", vobj [("vin", vstr v)])]) t).isSome = true ∧
    dget ((normalize_autodev_listing
        (vobj [("vehicle", vobj [("vin", vstr v)])]) t).getD []) "vin" = vstr v ∧
    othersUnset ((normalize_autodev_listing
        (vobj [("vehicle", vobj [("vin", vstr v)])]) t).getD [])
      ["vin", "source", "data_source", "data_fetched_at", "raw_json",
       "build_json"] = true ∧
    (normalize_marketcheck_listing (vobj [("vin", vstr v)]) t).isSome = true ∧
    dget ((normalize_marketcheck_listing
        (vobj [("vin", vstr v)]) t).getD []) "vin" = vstr v ∧
    othersUnset ((normalize_marketcheck_listing (vobj [("vin", vstr v)]) t).getD [])
      ["vin", "source", "data_source", "data_fetched_at", "raw_json"] = true := by
  have hv : truthy (autodevVin (vobj [("vehicle", vobj [("vin", vstr v)])])) = true := by
    simp [autodevVin, vget, pyOr, lookupFirst, truthy, h]
  have hm : truthy (vget (vobj [("vin", vstr v)]) "vin") = true := by
    simp [vget, lookupFirst, truthy, h]
  simp only [normalize_autodev_some _ _ hv, normalize_marketcheck_some _ _ hm,
    Option.getD_some, Option.isSome_some]
  refine ⟨trivial, ?_, ?_, trivial, ?_, ?_⟩
  · simp [autodevRecord, dupdate, backfill_eq_of_present,
      seatsBackfill_eq_of_present, dget_dsetWhen_ne, dget_dset_ne,
      dget_dset_eq, dget_empty_record, lookupFirst_dsetWhen_ne,
      lookupFirst_dset_ne, lookupFirst_dset_eq, lookupFirst_empty_record,
      UNIFIED_COLUMNS, pyOr, vget, lookupFirst_nil, lookupFirst_cons, truthy]
  · simp [othersUnset, UNIFIED_COLUMNS, List.contains, List.elem,
      autodevRecord, dupdate, backfill_eq_of_present,
      seatsBackfill_eq_of_present, dget_dsetWhen_ne, dget_dset_ne,
      dget_dset_eq, dget_empty_record, lookupFirst_dsetWhen_ne,
      lookupFirst_dset_ne, lookupFirst_dset_eq, lookupFirst_empty_record,
      dsetWhen, pyOr, vget, lookupFirst_nil, lookupFirst_cons, truthy,
      listLen, listIdx, to_int, to_float, to_bool, isNullV]
  · simp [marketcheckRecord, dupdate, backfill_eq_of_present,
      dget_dset_ne, dget_dset_eq, dget_empty_record,
      lookupFirst_dset_ne, lookupFirst_dset_eq, lookupFirst_empty_record,
      UNIFIED_COLUMNS, pyOr, vget, lookupFirst_nil, lookupFirst_cons, truthy]
  · simp [othersUnset, UNIFIED_COLUMNS, List.contains, List.elem,
      marketcheckRecord, dupdate, backfill_eq_of_present,
      dget_dset_ne, dget_dset_eq, dget_empty_record,
      lookupFirst_dset_ne, lookupFirst_dset_eq, lookupFirst_empty_record,
      pyOr, vget, lookupFirst_nil, lookupFirst_cons, truthy,
      listLen, listIdx, to_int, to_float, to_bool, isNullV]

/-- C6 amended witness: the amended statement at a concrete VIN. -/
theorem minimal_listing_only_identity_and_metadata_witness :
    (normalize_autodev_listing
        (vobj [("vehicle", vobj [("vin", vstr "1FAKE000000000002")])])
        "2024-02-02").isSome = true ∧
    dget ((normalize_autodev_listing
        (vobj [("vehicle", vobj [("vin", vstr "1FAKE000000000002")])])
        "2024-02-02").getD []) "vin" = vstr "1FAKE000000000002" ∧
    othersUnset ((normalize_autodev_listing
        (vobj [("vehicle", vobj [("vin", vstr "1FAKE000000000002")])])
        "2024-02-02").getD [])
      ["vin", "source", "data_source", "data_fetched_at", "raw_json",
       "build_json"] = true ∧
    (normalize_marketcheck_listing
        (vobj [("vin", vstr "1FAKE000000000002")]) "2024-02-02").isSome = true ∧
    dget ((normalize_marketcheck_listing
        (vobj [("vin", vstr "1FAKE000000000002")]) "2024-02-02").getD [])
      "vin" = vstr "1FAKE000000000002" ∧
    othersUnset ((normalize_marketcheck_listing
        (vobj [("vin", vstr "1FAKE000000000002")]) "2024-02-02").getD [])
      ["vin", "source", "data_source", "data_fetched_at", "raw_json"] = true :=
  minimal_listing_only_identity_and_metadata "1FAKE000000000002" "2024-02-02" rfl

/-- C5: for every well-formed Auto.dev raw listing (with truthy VIN) whose
`location` field is a coordinate pair, the produced record reads the pair
longitude-first: `dealer_longitude` from index 0 and `dealer_latitude` from
index 1, each through `to_float`. -/
theorem autodev_location_pair_longitude_first (listing : Val) (t : String)
    (hWF : autodevWF listing = true)
    (hvin : truthy (autodevVin listing) = true)
    (l0 l1 : Val) (rest : List Val)
    (hloc : vget listing "location" = vlist (l0 :: l1 :: rest)) :
    normalize_autodev_listing listing t = some (autodevRecord listing t) ∧
    dget (autodevRecord listing t) "dealer_longitude" = to_float l0 ∧
    dget (autodevRecord listing t) "dealer_latitude" = to_float l1 := by
  have hlen : 1 < rest.length + 1 + 1 := by omega
  refine ⟨normalize_autodev_some listing t hvin, ?_, ?_⟩
  · simp [autodevRecord, dupdate, backfill_eq_of_present,
      seatsBackfill_eq_of_present, dget_dsetWhen_ne, dget_dset_ne,
      dget_dset_eq, dget_empty_record, lookupFirst_dsetWhen_ne,
      lookupFirst_dset_ne, lookupFirst_dset_eq, lookupFirst_empty_record,
      UNIFIED_COLUMNS, hloc, pyOr, truthy, listIdx, listLen]
  · simp [autodevRecord, dupdate, backfill_eq_of_present,
      seatsBackfill_eq_of_present, dget_dsetWhen_ne, dget_dset_ne,
      dget_dset_eq, dget_empty_record, lookupFirst_dsetWhen_ne,
      lookupFirst_dset_ne, lookupFirst_dset_eq, lookupFirst_empty_record,
      UNIFIED_COLUMNS, hloc, pyOr, truthy, listIdx, listLen, hlen]

/-- C5 witness: the location pair `[-122.4, 37.8]` yields
`dealer_longitude = -122.4` and `dealer_latitude = 37.8`. -/
theorem autodev_location_pair_longitude_first_witness :
    dget (autodevRecord
        (vobj [("vehicle", vobj [("vin", vstr "JH4KA7650MC000000")]),
               ("location", vlist [vnum (-122.4), vnum 37.8])]) "2024-01-01")
      "dealer_longitude" = vnum (-122.4) ∧
    dget (autodevRecord
        (vobj [("vehicle", vobj [("vin", vstr "JH4KA7650MC000000")]),
               ("location", vlist [vnum (-122.4), vnum 37.8])]) "2024-01-01")
      "dealer_latitude" = vnum 37.8 :=
  ⟨((autodev_location_pair_longitude_first
      (vobj [("vehicle", vobj [("vin", vstr "JH4KA7650MC000000")]),
             ("location", vlist [vnum (-122.4), vnum 37.8])]) "2024-01-01"
      rfl rfl (vnum (-122.4)) (vnum 37.8) [] rfl).2.1).trans rfl,
   ((autodev_location_pair_longitude_first
      (vobj [("vehicle", vobj [("vin", vstr "JH4KA7650MC000000")]),
             ("location", vlist [vnum (-122.4), vnum 37.8])]) "2024-01-01"
      rfl rfl (vnum (-122.4)) (vnum 37.8) [] rfl).2.2).trans rfl⟩

set_option maxHeartbeats 6400000 in
/-- C8: both normalizers map the source-specific used/new indicator onto the
same unified field pair.  Auto.dev: a boolean `used` flag gives
`inventory_type = "used"`/`"new"` (unset for any non-boolean value) and
`is_used = to_bool(used)` (the same boolean).  Marketcheck: the
`inventory_type` string token is copied through, and after stripping
whitespace and lowercasing, "used" gives `is_used = 1`, "new" gives
`is_used = 0`, and any other token leaves `is_used` unset. -/
theorem used_flag_normalization (la lm : Val) (t u : String)
    (hA : autodevWF la = true) (hAvin : truthy (autodevVin la) = true)
    (hM : marketcheckWF lm = true) (hMvin : truthy (vget lm "vin") = true) :
    normalize_autodev_listing la t = some (autodevRecord la t) ∧
    normalize_marketcheck_listing lm u = some (marketcheckRecord lm u) ∧
    (∀ b : Bool,
      vget (pyOr (vget la "retailListing") (vobj [])) "used" = vbool b →
      dget (autodevRecord la t) "inventory_type" =
        (if b then vstr "used" else vstr "new") ∧
      dget (autodevRecord la t) "is_used" = vbool b) ∧
    (∀ w : Val,
      vget (pyOr (vget la "retailListing") (vobj [])) "used" = w →
      (∀ b : Bool, w ≠ vbool b) →
      dget (autodevRecord la t) "inventory_type" = vnull) ∧
    (∀ s : String, vget lm "inventory_type" = vstr s →
      dget (marketcheckRecord lm u) "inventory_type" = vstr s ∧
      (strLower (strStrip s) = "used" →
        dget (marketcheckRecord lm u) "is_used" = vnum 1) ∧
      (strLower (strStrip s) = "new" →
        dget (marketcheckRecord lm u) "is_used" = vnum 0) ∧
      (strLower (strStrip s) ≠ "used" → strLower (strStrip s) ≠ "new" →
        dget (marketcheckRecord lm u) "is_used" = vnull)) := by
  refine ⟨normalize_autodev_some la t hAvin, normalize_marketcheck_some lm u hMvin,
    ?_, ?_, ?_⟩
  · intro b hUsed
    cases b <;>
      constructor <;>
      simp [autodevRecord, dupdate, backfill_eq_of_present,
        seatsBackfill_eq_of_present, dget_dsetWhen_ne, dget_dset_ne,
        dget_dset_eq, dget_empty_record, lookupFirst_dsetWhen_ne,
        lookupFirst_dset_ne, lookupFirst_dset_eq, lookupFirst_empty_record,
        UNIFIED_COLUMNS, hUsed, to_bool]
  · intro w hUsed hnb
    cases w with
    | vbool b => exact absurd rfl (hnb b)
    | vnull =>
      simp [autodevRecord, dupdate, backfill_eq_of_present,
        seatsBackfill_eq_of_present, dget_dsetWhen_ne, dget_dset_ne,
        dget_dset_eq, dget_empty_record, lookupFirst_dsetWhen_ne,
        lookupFirst_dset_ne, lookupFirst_dset_eq, lookupFirst_empty_record,
        UNIFIED_COLUMNS, hUsed]
    | vnum q =>
      simp [autodevRecord, dupdate, backfill_eq_of_present,
        seatsBackfill_eq_of_present, dget_dsetWhen_ne, dget_dset_ne,
        dget_dset_eq, dget_empty_record, lookupFirst_dsetWhen_ne,
        lookupFirst_dset_ne, lookupFirst_dset_eq, lookupFirst_empty_record,
        UNIFIED_COLUMNS, hUsed]
    | vstr s =>
      simp [autodevRecord, dupdate, backfill_eq_of_present,
        seatsBackfill_eq_of_present, dget_dsetWhen_ne, dget_dset_ne,
        dget_dset_eq, dget_empty_record, lookupFirst_dsetWhen_ne,
        lookupFirst_dset_ne, lookupFirst_dset_eq, lookupFirst_empty_record,
        UNIFIED_COLUMNS, hUsed]
    | vlist xs =>
      simp [autodevRecord, dupdate, backfill_eq_of_present,
        seatsBackfill_eq_of_present, dget_dsetWhen_ne, dget_dset_ne,
        dget_dset_eq, dget_empty_record, lookupFirst_dsetWhen_ne,
        lookupFirst_dset_ne, lookupFirst_dset_eq, lookupFirst_empty_record,
        UNIFIED_COLUMNS, hUsed]
    | vobj fs =>
      simp [autodevRecord, dupdate, backfill_eq_of_present,
        seatsBackfill_eq_of_present, dget_dsetWhen_ne, dget_dset_ne,
        dget_dset_eq, dget_empty_record, lookupFirst_dsetWhen_ne,
        lookupFirst_dset_ne, lookupFirst_dset_eq, lookupFirst_empty_record,
        UNIFIED_COLUMNS, hUsed]
  · intro s hInv
    refine ⟨?_, ?_, ?_, ?_⟩
    · simp [marketcheckRecord, dupdate, backfill_eq_of_present,
        dget_dset_ne, dget_dset_eq, dget_empty_record,
        lookupFirst_dset_ne, lookupFirst_dset_eq, lookupFirst_empty_record,
        UNIFIED_COLUMNS, hInv]
    · intro htok
      simp [marketcheckRecord, dupdate, backfill_eq_of_present,
        dget_dset_ne, dget_dset_eq, dget_empty_record,
        lookupFirst_dset_ne, lookupFirst_dset_eq, lookupFirst_empty_record,
        UNIFIED_COLUMNS, hInv, htok]
    · intro htok
      simp [marketcheckRecord, dupdate, backfill_eq_of_present,
        dget_dset_ne, dget_dset_eq, dget_empty_record,
        lookupFirst_dset_ne, lookupFirst_dset_eq, lookupFirst_empty_record,
        UNIFIED_COLUMNS, hInv, htok]
    · intro h1 h2
      have hb1 : (strLower (strStrip s) == "used") = false := beq_eq_false_iff_ne.mpr h1
      have hb2 : (strLower (strStrip s) == "new") = false := beq_eq_false_iff_ne.mpr h2
      simp [marketcheckRecord, dupdate, backfill_eq_of_present,
        dget_dset_ne, dget_dset_eq, dget_empty_record,
        lookupFirst_dset_ne, lookupFirst_dset_eq, lookupFirst_empty_record,
        UNIFIED_COLUMNS, hInv, hb1, hb2]

/-- C8 witness: a true boolean `used` flag maps to `inventory_type = "used"`
and `is_used = true` for Auto.dev, and the token `"  USED "` maps to
`is_used = 1` for Marketcheck. -/
theorem used_flag_normalization_witness :
    dget (autodevRecord
        (vobj [("vehicle", vobj [("vin", vstr "WVWZZZ3BZWE000001")]),
               ("retailListing", vobj [("used", vbool true)])]) "2024-01-01")
      "inventory_type" = vstr "used" ∧
    dget (autodevRecord
        (vobj [("vehicle", vobj [("vin", vstr "WVWZZZ3BZWE000001")]),
               ("retailListing", vobj [("used", vbool true)])]) "2024-01-01")
      "is_used" = vbool true ∧
    dget (marketcheckRecord
        (vobj [("vin", vstr "WVWZZZ3BZWE000002"),
               ("inventory_type", vstr "  USED ")]) "2024-01-01")
      "is_used" = vnum 1 :=
  ⟨((used_flag_normalization
      (vobj [("vehicle", vobj [("vin", vstr "WVWZZZ3BZWE000001")]),
             ("retailListing", vobj [("used", vbool true)])])
      (vobj [("vin", vstr "WVWZZZ3BZWE000002"),
             ("inventory_type", vstr "  USED ")])
      "2024-01-01" "2024-01-01" rfl rfl rfl rfl).2.2.1 true rfl).1,
   ((used_flag_normalization
      (vobj [("vehicle", vobj [("vin", vstr "WVWZZZ3BZWE000001")]),
             ("retailListing", vobj [("used", vbool true)])])
      (vobj [("vin", vstr "WVWZZZ3BZWE000002"),
             ("inventory_type", vstr "  USED ")])
      "2024-01-01" "2024-01-01" rfl rfl rfl rfl).2.2.1 true rfl).2,
   (((used_flag_normalization
      (vobj [("vehicle", vobj [("vin", vstr "WVWZZZ3BZWE000001")]),
             ("retailListing", vobj [("used", vbool true)])])
      (vobj [("vin", vstr "WVWZZZ3BZWE000002"),
             ("inventory_type", vstr "  USED ")])
      "2024-01-01" "2024-01-01" rfl rfl rfl rfl).2.2.2.2 "  USED " rfl).2.1
      (by decide))⟩

end FetchUnified
